/-
Verification of the comms layer of the kernel repository: realm selection
(scoring link and realm-change saga), the legacy broker/coordinator
transport, the BFF transport, and the v4 address resolver.

Each definition is a shallow embedding of the corresponding TypeScript
source: class fields become structure fields, method calls become state
transformers, JavaScript exceptions become Except results, and socket /
timer effects are recorded explicitly in the state (messages sent,
observer deliveries, timer activity).
-/
import Mathlib

/-! ## Realms and the realm-change saga
Source: packages/shared/comms (saga file) and shared/dao types. -/

/-- A realm descriptor: protocol tag, hostname and server name
(the identity fields used by the realm-change saga). -/
structure Realm where
  protocol : String
  hostname : String
  serverName : String
deriving DecidableEq, Repr

/-- Embedding of the saga helper sameRealm, exactly as written in the
source: it compares realm1.serverName with realm2.serverName, but then
compares realm2.hostname with itself (the source reads
realm2.hostname === realm2.hostname). -/
def sameRealm (realm1 realm2 : Realm) : Bool :=
  realm1.serverName == realm2.serverName && realm2.hostname == realm2.hostname

/-- Embedding of the decision made by the changeRealm saga: given the
current realm (none when no realm is set yet) and the freshly selected
realm, it returns true exactly when setCatalystRealm is dispatched.
The source dispatches only when a current realm exists and sameRealm
returns false; otherwise it only logs. -/
def changeRealmDispatches (currentRealm : Option Realm) (otherRealm : Realm) : Bool :=
  match currentRealm with
  | none => false
  | some c => !(sameRealm c otherRealm)

/-! ## Broker / coordinator transport (CliBrokerConnection)
Source: packages/shared/comms/v1/CliBrokerConnection.ts. -/

/-- WebSocket ready states, as exposed by the browser socket API. -/
inductive WsReadyState where
  | CONNECTING
  | OPEN
  | CLOSING
  | CLOSED
deriving DecidableEq, Repr

/-- State of an fp-future: pending until resolve or reject is called. -/
inductive FutureState where
  | pending
  | resolved
  | rejected
deriving DecidableEq, Repr

/-- Resolving a future: a pending future becomes resolved; resolving a
settled future is a no-op. -/
def FutureState.resolve : FutureState → FutureState
  | .pending => .resolved
  | s => s

/-- Outbound coordinator messages. The source serializes everything to
bytes before handing it to sendCoordinatorMessage; we keep the two shapes
that occur (raw payload from send, and the CONNECT reply built in the
WELCOME branch with its from/to aliases). -/
inductive BrokerOut where
  | raw (data : List Nat)
  | connectMsg (fromAlias toAlias : Nat)
deriving DecidableEq, Repr

/-- Inbound coordinator messages, as seen after decoding.
headerFail models CoordinatorMessage.deserializeBinary throwing;
welcome none models a WELCOME whose body fails to decode. -/
inductive BrokerIn where
  | headerFail
  | welcome (decoded : Option Nat)
  | topicFw (data : List Nat)
  | topicIdentityFw (data : List Nat)
  | ping (data : List Nat)
  | other (t : Nat)
deriving DecidableEq, Repr

/-- State of a CliBrokerConnection instance: the socket reference (none
when the field is null, otherwise its ready state), the negotiated alias,
the internal connected future, the list of messages handed to the socket,
and the messages delivered to onMessageObservable subscribers. -/
structure BrokerState where
  ws : Option WsReadyState
  aliasNum : Option Nat
  connected : FutureState
  sent : List BrokerOut
  received : List (String × List Nat)
deriving DecidableEq, Repr

/-- The state of a freshly constructed CliBrokerConnection. -/
def brokerInit : BrokerState :=
  { ws := none, aliasNum := none, connected := .pending, sent := [], received := [] }

/-- A broker state with the socket open and the WELCOME still awaited:
no alias, future pending, nothing sent or received yet. -/
def brokerAwaitingWelcome : BrokerState :=
  { ws := some .OPEN, aliasNum := none, connected := .pending, sent := [], received := [] }

/-- Embedding of sendCoordinatorMessage: throws when the socket field is
null or its ready state is not OPEN, otherwise hands the message to the
socket. -/
def sendCoordinatorMessage (st : BrokerState) (msg : BrokerOut) : Except String BrokerState :=
  match st.ws with
  | none => .error "try to send answer to a non ready ws"
  | some rs =>
    if rs = .OPEN then .ok { st with sent := st.sent ++ [msg] }
    else .error "try to send answer to a non ready ws"

/-- Embedding of the public send method, which forwards to
sendCoordinatorMessage (the reliability flag is ignored by the source). -/
def brokerSend (st : BrokerState) (data : List Nat) : Except String BrokerState :=
  sendCoordinatorMessage st (.raw data)

/-- Embedding of onWsMessage. In the WELCOME branch the source first
stores the alias, then sends the CONNECT reply (from = alias, to = 0) and
only after that resolves the connected future; if sendCoordinatorMessage
throws, the resolve line never runs (the exception propagates to the
onmessage catch handler). Topic forwards and pings are delivered to
subscribers under the fixed LEGACY topic. Header-decode failures and
unrecognized types leave the state unchanged. -/
def brokerOnWsMessage (st : BrokerState) (m : BrokerIn) : BrokerState :=
  match m with
  | .headerFail => st
  | .welcome none => st
  | .welcome (some a) =>
    let st1 := { st with aliasNum := some a }
    match sendCoordinatorMessage st1 (.connectMsg a 0) with
    | .error _ => st1
    | .ok st2 => { st2 with connected := st2.connected.resolve }
  | .topicFw d => { st with received := st.received ++ [("LEGACY", d)] }
  | .topicIdentityFw d => { st with received := st.received ++ [("LEGACY", d)] }
  | .ping d => { st with received := st.received ++ [("LEGACY", d)] }
  | .other _ => st

/-- Events driving a CliBrokerConnection: the connect call creating the
socket, the environment opening the socket, an inbound message, the
socket error handler, and the disconnect method. -/
inductive BrokerEvent where
  | connectWS
  | socketOpened
  | wsMessage (m : BrokerIn)
  | socketError
  | disconnect
deriving DecidableEq, Repr

/-- One step of the broker transport.
connectWS closes any existing socket and creates a new CONNECTING one;
socketOpened is the environment moving the socket to OPEN;
the socket error handler only logs and clears the socket field;
disconnect clears the handlers and the socket field. Neither the error
handler nor disconnect touches the connected future. -/
def brokerStep (st : BrokerState) (e : BrokerEvent) : BrokerState :=
  match e with
  | .connectWS => { st with ws := some .CONNECTING }
  | .socketOpened =>
    match st.ws with
    | some .CONNECTING => { st with ws := some .OPEN }
    | _ => st
  | .wsMessage m => brokerOnWsMessage st m
  | .socketError => { st with ws := none }
  | .disconnect => { st with ws := none }

/-- Recognizes the only event that can settle the connected future: a
successfully decoded WELCOME message. -/
def isWelcomeEvent : BrokerEvent → Bool
  | .wsMessage (.welcome (some _)) => true
  | _ => false

/-! ## BFF transport (BFFConnection)
Source: packages/shared/comms/v4/BFFConnection.ts. -/

/-- A 3D world position as reported by the position collaborator
(the BFFConfig selfPosition callback). -/
structure Position3D where
  x : Int
  y : Int
  z : Int
deriving DecidableEq, Repr

/-- Outbound BFF messages, by kind and the payload fields the claims
depend on (serialization and timestamps are opaque to this layer). -/
inductive BFFOut where
  | heartBeat (pos : Position3D)
  | validation (signedPayload : List Nat)
  | topic (topicName : String) (body : List Nat)
  | subscription (topics : List String)
deriving DecidableEq, Repr

/-- Inbound BFF frames, as seen after decoding. headerFail models
MessageHeader.deserializeBinary throwing; a none payload in openMsg,
topicMsg or islandChanges models the body decoder throwing for that
message type. -/
inductive BFFIn where
  | headerFail
  | unknownType
  | openMsg (payload : Option (List Nat))
  | validationOk
  | validationFailure
  | topicMsg (body : Option (String × List Nat))
  | islandChanges (connStr : Option String)
  | otherType (t : Nat)
deriving DecidableEq, Repr

/-- State of a BFFConnection instance: whether the ws field is set,
whether the heartBeatInterval field is set and whether that interval is
still scheduled (disconnect calls clearInterval but never nulls the
field), the messages handed to the socket, the deliveries made to the
topic / island observers, and how many times onDisconnectObservable was
notified. -/
structure BFFState where
  wsSet : Bool
  heartBeatIntervalSet : Bool
  timerActive : Bool
  sent : List BFFOut
  topicDeliveries : List (String × List Nat)
  islandDeliveries : List String
  disconnectCount : Nat
deriving DecidableEq, Repr

/-- The state of a BFFConnection right after connect succeeded: socket
created and heartbeat interval scheduled. -/
def bffConnected : BFFState :=
  { wsSet := true, heartBeatIntervalSet := true, timerActive := true,
    sent := [], topicDeliveries := [], islandDeliveries := [], disconnectCount := 0 }

/-- Embedding of the BFF send method: throws with the exact message of
the source when the ws field is null, otherwise hands the bytes to the
socket. -/
def bffSend (st : BFFState) (m : BFFOut) : Except String BFFState :=
  if st.wsSet then .ok { st with sent := st.sent ++ [m] }
  else .error "This transport is closed"

/-- Embedding of the BFF disconnect method: clearInterval when the
heartBeatInterval field is set (a no-op on an already cleared timer, and
the field itself is never nulled), then, only when the ws field is set,
clear its handlers, close it, null the field and notify the
onDisconnectObservable subscribers once. -/
def bffDisconnect (st : BFFState) : BFFState :=
  let st1 := if st.heartBeatIntervalSet then { st with timerActive := false } else st
  if st1.wsSet then
    { st1 with wsSet := false, disconnectCount := st1.disconnectCount + 1 }
  else st1

/-- Embedding of sendHeartBeat, taking the position collaborator's answer
as an argument: when no position is known the method falls through
without building or sending anything; when a position is known it sends a
HEARTBEAT carrying it (via send, which throws when the socket is gone). -/
def sendHeartBeat (st : BFFState) (position : Option Position3D) : Except String BFFState :=
  match position with
  | none => .ok st
  | some p => bffSend st (.heartBeat p)

/-- Embedding of the BFF onWsMessage dispatch, parameterized by the
identity collaborator's signing function. Decode failures (header or
body) are logged and dropped. An OPEN challenge is answered with a
VALIDATION message carrying the signed payload; the send is a dangling
promise in the source, so its failure has no further effect.
VALIDATION_FAILURE triggers disconnect. TOPIC and ISLAND_CHANGES frames
are delivered to their observers. -/
def bffOnWsMessage (sign : List Nat → List Nat) (st : BFFState) (m : BFFIn) : BFFState :=
  match m with
  | .headerFail => st
  | .unknownType => st
  | .openMsg none => st
  | .openMsg (some payload) =>
    match bffSend st (.validation (sign payload)) with
    | .ok st1 => st1
    | .error _ => st
  | .validationOk => st
  | .validationFailure => bffDisconnect st
  | .topicMsg none => st
  | .topicMsg (some (peerId, body)) =>
    { st with topicDeliveries := st.topicDeliveries ++ [(peerId, body)] }
  | .islandChanges none => st
  | .islandChanges (some cs) => { st with islandDeliveries := st.islandDeliveries ++ [cs] }
  | .otherType _ => st

/-- An inbound BFF frame is malformed when its header fails to decode, or
when its header decodes but the body decoder for the announced type
throws. -/
def malformedFrame : BFFIn → Bool
  | .headerFail => true
  | .openMsg none => true
  | .topicMsg none => true
  | .islandChanges none => true
  | _ => false

/-! ## Candidate scoring: the close-peers score link
Source: the closePeersScoreLink module. Its helpers countParcelsCloseTo,
usersParcels, defaultScoreAddons and selectFirstByScore live in modules
that are not part of this tree; they are modelled from the spec. -/

/-- A discrete world-grid position (parcel coordinates). -/
structure Parcel where
  x : Int
  y : Int
deriving DecidableEq, Repr

/-- A candidate realm as seen by the scoring chain: its identity plus the
parcels of the users it reports (none when no positional records are
known). The usersParcels helper of the source reduces to reading this
field. -/
structure Candidate where
  domain : String
  usersParcels : Option (List Parcel)
deriving DecidableEq, Repr

/-- The context a scoring link receives: the candidate set and the local
user's parcel. -/
structure AlgorithmContext where
  allCandidates : List Candidate
  userParcel : Parcel
deriving DecidableEq, Repr

/-- Parameters of the close-peers score link. The latency-deduction
addon's parameters are kept abstract as the deduction they induce per
candidate. -/
structure ClosePeersScoreParameters where
  closePeersDistance : Nat
  baseScore : Int
  latencyDeduction : Candidate → Int

/-- Modelled from the spec: countParcelsCloseTo counts how many of the
given parcels lie within maxDistance of the reference parcel, in
Chebyshev grid distance (its implementation lives outside this tree). -/
def countParcelsCloseTo (reference : Parcel) (parcels : List Parcel) (maxDistance : Nat) : Nat :=
  (parcels.filter
    (fun p => max (reference.x - p.x).natAbs (reference.y - p.y).natAbs ≤ maxDistance)).length

/-- Embedding of the closeUsersScore helper of closePeersScoreLink: a
candidate with a non-empty list of known user parcels scores baseScore
plus the count of those parcels close to the user's parcel; any other
candidate scores 0. -/
def closeUsersScore (params : ClosePeersScoreParameters) (currentParcel : Parcel)
    (candidate : Candidate) : Int :=
  match candidate.usersParcels with
  | some parcels =>
    if 0 < parcels.length then
      params.baseScore + (countParcelsCloseTo currentParcel parcels params.closePeersDistance : Int)
    else 0
  | none => 0

/-- Modelled from the spec: defaultScoreAddons applies the shared
latency-deduction modifier identically on top of a link's raw score (its
implementation lives outside this tree). -/
def defaultScoreAddons (latencyDeduction : Candidate → Int) (rawScore : Candidate → Int) :
    Candidate → Int :=
  fun c => rawScore c - latencyDeduction c

/-- Modelled from the spec: selectFirstByScore sorts the candidates by
adjusted score descending and returns the top candidate only when its
score exceeds the runner-up's by at least the margin; with a runner-up
closer than the margin it returns no decision (its implementation lives
outside this tree). -/
def selectFirstByScore (context : AlgorithmContext) (score : Candidate → Int) (margin : Int) :
    Option Candidate :=
  match List.insertionSort (fun a b => score b ≤ score a) context.allCandidates with
  | [] => none
  | [c] => some c
  | c1 :: c2 :: _ => if margin ≤ score c1 - score c2 then some c1 else none

/-- Embedding of the pick function of closePeersScoreLink: the raw
closeUsersScore adjusted by the shared addons, decided with margin 10. -/
def closePeersScorePick (params : ClosePeersScoreParameters) (context : AlgorithmContext) :
    Option Candidate :=
  selectFirstByScore context
    (defaultScoreAddons params.latencyDeduction (closeUsersScore params context.userParcel)) 10

/-! ## v4 BFF address resolution
Source: the resolveCommsV4Url module. URL strings are embedded as
character lists so that prefix rewriting is structural. -/

/-- Finds the first occurrence of the scheme separator (a colon followed
by two slashes) in a character list, returning the text before and after
it; models the regex test and the URL parsing used by the resolver. -/
def splitSchemeSep : List Char → Option (List Char × List Char)
  | [] => none
  | c :: rest =>
    if c = ':' ∧ rest.take 2 = ['/', '/'] then some ([], rest.drop 2)
    else
      match splitSchemeSep rest with
      | some (pre, post) => some (c :: pre, post)
      | none => none

/-- Keeps everything up to and including the last slash of a character
list (empty when there is no slash). -/
def dropLastSegment (l : List Char) : List Char :=
  (l.reverse.dropWhile (fun c => c ≠ '/')).reverse

/-- Model of WHATWG relative-URL resolution for the base shapes the
resolver produces (scheme://host or scheme://host/path, no query): the
relative path replaces the last path segment, or is appended after a
slash when the base has no path. -/
def urlResolve (rel : List Char) (base : List Char) : List Char :=
  match splitSchemeSep base with
  | none => base
  | some (scheme, rest) =>
    if rest.contains '/' then
      scheme ++ ':' :: '/' :: '/' :: (dropLastSegment rest ++ rel)
    else
      scheme ++ ':' :: '/' :: '/' :: rest ++ '/' :: rel

/-- Embedding of the httpToWs helper: rewrites a leading https scheme to
wss, otherwise a leading http scheme to ws, otherwise leaves the url
unchanged. -/
def httpToWs (url : List Char) : List Char :=
  match url with
  | 'h' :: 't' :: 't' :: 'p' :: 's' :: ':' :: '/' :: '/' :: rest => "wss://".data ++ rest
  | 'h' :: 't' :: 't' :: 'p' :: ':' :: '/' :: '/' :: rest => "ws://".data ++ rest
  | l => l

/-- Embedding of resolveCommsV4Url: none unless the realm's protocol is
v4; the well-known hostnames local and remote map to fixed addresses;
any other hostname is given an explicit https scheme when it has none,
the fixed sub-path bff/ws-bff is resolved against it, and the scheme is
rewritten by httpToWs. -/
def resolveCommsV4Url (realm : Realm) : Option (List Char) :=
  if realm.protocol ≠ "v4" then none
  else if realm.hostname = "local" then some (httpToWs "http://127.0.0.1:5002/ws-bff".data)
  else if realm.hostname = "remote" then
    some (httpToWs "https://explorer-bff.decentraland.io/ws-bff".data)
  else
    let server :=
      if (splitSchemeSep realm.hostname.data).isSome then realm.hostname.data
      else "https://".data ++ realm.hostname.data
    some (httpToWs (urlResolve "bff/ws-bff".data server))

/-- A concrete parameter set for the close-peers link: distance 2, base
score 40 and no latency deduction. -/
def demoParams : ClosePeersScoreParameters :=
  { closePeersDistance := 2, baseScore := 40, latencyDeduction := fun _ => 0 }

/-- A candidate that reports one user at the origin parcel. -/
def demoCandidateA : Candidate := { domain := "peer-a", usersParcels := some [⟨0, 0⟩] }

/-- A candidate with no known user positions. -/
def demoCandidateB : Candidate := { domain := "peer-b", usersParcels := none }

/-- A scoring context with the two demo candidates and the user at the
origin parcel. -/
def demoContext : AlgorithmContext :=
  { allCandidates := [demoCandidateA, demoCandidateB], userParcel := ⟨0, 0⟩ }

/-! ## Helper lemmas -/

/-- A broker step whose event is not a successfully decoded WELCOME
leaves a pending connected future pending. -/
theorem brokerStep_pending_of_not_welcome (st : BrokerState) (e : BrokerEvent)
    (he : isWelcomeEvent e = false) (hp : st.connected = .pending) :
    (brokerStep st e).connected = .pending := by
  obtain ⟨ws, aliasNum, connected, sent, received⟩ := st
  cases e with
  | connectWS => exact hp
  | socketOpened => cases ws with
    | none => exact hp
    | some rs => cases rs <;> exact hp
  | socketError => exact hp
  | disconnect => exact hp
  | wsMessage m =>
    cases m with
    | headerFail => exact hp
    | welcome d =>
      cases d with
      | none => exact hp
      | some a => exact absurd he (by simp [isWelcomeEvent])
    | topicFw d => exact hp
    | topicIdentityFw d => exact hp
    | ping d => exact hp
    | other t => exact hp

/-- The BFF teardown is idempotent: running disconnect on an
already-disconnected state changes nothing. -/
theorem bffDisconnect_idem (s : BFFState) : bffDisconnect (bffDisconnect s) = bffDisconnect s := by
  obtain ⟨w, hb, t, snt, td, idl, dc⟩ := s
  cases hb <;> cases w <;> simp [bffDisconnect]

/-! ## Claim theorems -/

/-- C1: evidence against the claim as a property of the code. At two
realms that share a server name but differ in hostname, sameRealm still
returns true (its hostname comparison compares realm2's hostname with
itself), and consequently changeRealm does not dispatch setCatalystRealm
even though the realms disagree on an identity field. -/
theorem C1_sameRealm_ignores_first_hostname :
    sameRealm ⟨"v4", "peer-a.decentraland.org", "fenrir"⟩
      ⟨"v4", "peer-b.decentraland.org", "fenrir"⟩ = true ∧
    (⟨"v4", "peer-a.decentraland.org", "fenrir"⟩ : Realm).hostname ≠
      (⟨"v4", "peer-b.decentraland.org", "fenrir"⟩ : Realm).hostname ∧
    changeRealmDispatches (some ⟨"v4", "peer-a.decentraland.org", "fenrir"⟩)
      ⟨"v4", "peer-b.decentraland.org", "fenrir"⟩ = false := by
  refine ⟨by decide, by decide, by decide⟩

/-- C2: counterexample to the claim as stated. After connect and
socket-open but before any WELCOME (so no alias is assigned), send does
not throw: it succeeds and hands the bytes to the socket. -/
theorem C2_counterexample_send_before_alias_succeeds :
    (brokerStep (brokerStep brokerInit .connectWS) .socketOpened).aliasNum = none ∧
    (brokerStep (brokerStep brokerInit .connectWS) .socketOpened).ws = some .OPEN ∧
    brokerSend (brokerStep (brokerStep brokerInit .connectWS) .socketOpened) [1, 2, 3] =
      .ok { ws := some .OPEN, aliasNum := none, connected := .pending,
            sent := [.raw [1, 2, 3]], received := [] } :=
  ⟨rfl, rfl, rfl⟩

/-- C2 (amended): every call to the broker transport's send while the
underlying socket is absent or not open throws the explicit
non-ready-socket error rather than silently dropping the message; the
alias is not part of the check. -/
theorem C2_send_requires_open_socket (st : BrokerState) (data : List Nat)
    (h : st.ws ≠ some WsReadyState.OPEN) :
    brokerSend st data = .error "try to send answer to a non ready ws" := by
  obtain ⟨ws, aliasNum, connected, sent, received⟩ := st
  cases ws with
  | none => rfl
  | some rs => cases rs <;> simp_all [brokerSend, sendCoordinatorMessage]

/-- C2 witness: at the freshly constructed broker state the socket is
absent, and send fails with the explicit error. -/
theorem C2_send_requires_open_socket_witness :
    brokerInit.ws ≠ some WsReadyState.OPEN ∧
    brokerSend brokerInit [7] = .error "try to send answer to a non ready ws" :=
  ⟨by decide, C2_send_requires_open_socket brokerInit [7] (by decide)⟩

/-- C4: receiving VALIDATION_FAILURE on a connected BFF state is exactly
one teardown: it equals disconnect, leaves the heartbeat timer cancelled
and the socket cleared, notifies the disconnected observers exactly once,
and a second disconnect (on that state or on any state at all) changes
nothing and emits no further notification. -/
theorem C4_validation_failure_single_teardown (sign : List Nat → List Nat) (st : BFFState)
    (hws : st.wsSet = true) (hhb : st.heartBeatIntervalSet = true) :
    bffOnWsMessage sign st .validationFailure = bffDisconnect st ∧
    (bffOnWsMessage sign st .validationFailure).timerActive = false ∧
    (bffOnWsMessage sign st .validationFailure).wsSet = false ∧
    (bffOnWsMessage sign st .validationFailure).disconnectCount = st.disconnectCount + 1 ∧
    bffDisconnect (bffOnWsMessage sign st .validationFailure) =
      bffOnWsMessage sign st .validationFailure ∧
    (∀ s : BFFState, bffDisconnect (bffDisconnect s) = bffDisconnect s) := by
  obtain ⟨w, hb, t, snt, td, idl, dc⟩ := st
  subst hws
  subst hhb
  exact ⟨rfl, rfl, rfl, rfl, bffDisconnect_idem _, bffDisconnect_idem⟩

/-- C4 witness: the theorem applied to the connected BFF state with the
identity signing function. -/
theorem C4_validation_failure_single_teardown_witness :
    bffConnected.wsSet = true ∧ bffConnected.heartBeatIntervalSet = true ∧
    (bffOnWsMessage (fun l => l) bffConnected .validationFailure = bffDisconnect bffConnected ∧
      (bffOnWsMessage (fun l => l) bffConnected .validationFailure).timerActive = false ∧
      (bffOnWsMessage (fun l => l) bffConnected .validationFailure).wsSet = false ∧
      (bffOnWsMessage (fun l => l) bffConnected .validationFailure).disconnectCount =
        bffConnected.disconnectCount + 1 ∧
      bffDisconnect (bffOnWsMessage (fun l => l) bffConnected .validationFailure) =
        bffOnWsMessage (fun l => l) bffConnected .validationFailure ∧
      (∀ s : BFFState, bffDisconnect (bffDisconnect s) = bffDisconnect s)) :=
  ⟨rfl, rfl, C4_validation_failure_single_teardown (fun l => l) bffConnected rfl rfl⟩

/-- C5: when the position collaborator reports no position the heartbeat
routine produces no outbound message and no error; when it reports a
position and the socket is live, exactly one HEARTBEAT carrying that
position is sent. -/
theorem C5_heartbeat_position_gating (st : BFFState) (hws : st.wsSet = true) :
    sendHeartBeat st none = .ok st ∧
    (∀ p : Position3D,
      sendHeartBeat st (some p) = .ok { st with sent := st.sent ++ [.heartBeat p] }) := by
  refine ⟨rfl, fun p => ?_⟩
  simp [sendHeartBeat, bffSend, hws]

/-- C5 witness: the theorem applied to the connected BFF state and the
position (1, 2, 3). -/
theorem C5_heartbeat_position_gating_witness :
    bffConnected.wsSet = true ∧
    sendHeartBeat bffConnected none = .ok bffConnected ∧
    sendHeartBeat bffConnected (some ⟨1, 2, 3⟩) =
      .ok { bffConnected with sent := [.heartBeat ⟨1, 2, 3⟩] } :=
  ⟨rfl, (C5_heartbeat_position_gating bffConnected rfl).1,
    (C5_heartbeat_position_gating bffConnected rfl).2 ⟨1, 2, 3⟩⟩

/-- C6: sending on the BFF transport with the socket absent fails with
exactly the transport-closed error; a successful send implies the socket
was live (the failure is never swallowed, and nothing is retried); and
after any teardown a send always fails that way. -/
theorem C6_send_on_closed_transport_errors (st : BFFState) (m : BFFOut) :
    (st.wsSet = false → bffSend st m = .error "This transport is closed") ∧
    (∀ st1, bffSend st m = .ok st1 → st.wsSet = true) ∧
    bffSend (bffDisconnect st) m = .error "This transport is closed" := by
  obtain ⟨w, hb, t, snt, td, idl, dc⟩ := st
  cases w <;> cases hb <;> simp [bffSend, bffDisconnect]

/-- C6 witness: on the torn-down connected state the socket is absent
and send fails with the transport-closed error. -/
theorem C6_send_on_closed_transport_errors_witness :
    ({ bffConnected with wsSet := false } : BFFState).wsSet = false ∧
    bffSend { bffConnected with wsSet := false } (.heartBeat ⟨0, 0, 0⟩) =
      .error "This transport is closed" :=
  ⟨rfl, (C6_send_on_closed_transport_errors { bffConnected with wsSet := false }
    (.heartBeat ⟨0, 0, 0⟩)).1 rfl⟩

/-- C8: processing a malformed inbound BFF frame (header decode failure,
or body decode failure of an OPEN, TOPIC or ISLAND_CHANGES frame) leaves
the connection state completely unchanged: no teardown, no notification,
nothing sent. -/
theorem C8_malformed_frame_no_effect (sign : List Nat → List Nat) (st : BFFState) (m : BFFIn)
    (h : malformedFrame m = true) : bffOnWsMessage sign st m = st := by
  cases m with
  | headerFail => rfl
  | unknownType => exact absurd h Bool.false_ne_true
  | openMsg p => cases p with
    | none => rfl
    | some payload => exact absurd h Bool.false_ne_true
  | validationOk => exact absurd h Bool.false_ne_true
  | validationFailure => exact absurd h Bool.false_ne_true
  | topicMsg b => cases b with
    | none => rfl
    | some body => exact absurd h Bool.false_ne_true
  | islandChanges cs => cases cs with
    | none => rfl
    | some connStr => exact absurd h Bool.false_ne_true
  | otherType t => exact absurd h Bool.false_ne_true

/-- C8 witness: a header-decode failure on the connected state is a
no-op. -/
theorem C8_malformed_frame_no_effect_witness :
    malformedFrame .headerFail = true ∧
    bffOnWsMessage (fun l => l) bffConnected .headerFail = bffConnected :=
  ⟨rfl, C8_malformed_frame_no_effect (fun l => l) bffConnected .headerFail rfl⟩

/-- C10: the broker socket-error handler only clears the socket field and,
like disconnect, never resolves or rejects the connected future; hence
along any event trace that contains no successfully decoded WELCOME, a
pending connected future stays pending forever, and a caller awaiting
connect is never unblocked and never sees an error. -/
theorem C10_error_and_disconnect_never_settle_connected :
    (∀ st : BrokerState,
      (brokerStep st .socketError).connected = st.connected ∧
      (brokerStep st .socketError).ws = none ∧
      (brokerStep st .disconnect).connected = st.connected) ∧
    (∀ (st : BrokerState) (es : List BrokerEvent), st.connected = .pending →
      (∀ e ∈ es, isWelcomeEvent e = false) →
      (es.foldl brokerStep st).connected = .pending) := by
  constructor
  · intro st; exact ⟨rfl, rfl, rfl⟩
  · intro st es
    induction es generalizing st with
    | nil => intro hp _; exact hp
    | cons e es ih =>
      intro hp hall
      exact ih (brokerStep st e)
        (brokerStep_pending_of_not_welcome st e (hall e (by simp)) hp)
        (fun e' he' => hall e' (by simp [he']))

/-- C10 witness: from the fresh broker state, the trace connect,
socket-open, socket error, disconnect leaves the connected future
pending. -/
theorem C10_error_and_disconnect_never_settle_connected_witness :
    brokerInit.connected = .pending ∧
    (∀ e ∈ [BrokerEvent.connectWS, .socketOpened, .socketError, .disconnect],
      isWelcomeEvent e = false) ∧
    (([BrokerEvent.connectWS, .socketOpened, .socketError, .disconnect].foldl
      brokerStep brokerInit).connected = .pending) :=
  ⟨rfl, by decide,
    C10_error_and_disconnect_never_settle_connected.2 brokerInit _ rfl (by decide)⟩

/-- C3: in every broker execution step, the connected future becomes
resolved only by processing a successfully decoded WELCOME message on an
open socket, and in the resulting state the CONNECT reply addressed
from the received alias to 0 has been handed to the socket; a mere
socket-open (or any other event) never resolves it. -/
theorem C3_connected_resolves_only_with_welcome_and_connect
    (st : BrokerState) (e : BrokerEvent)
    (hpre : st.connected ≠ .resolved)
    (hpost : (brokerStep st e).connected = .resolved) :
    ∃ a, e = .wsMessage (.welcome (some a)) ∧ st.ws = some .OPEN ∧
      BrokerOut.connectMsg a 0 ∈ (brokerStep st e).sent := by
  obtain ⟨ws, aliasNum, connected, sent, received⟩ := st
  cases e with
  | connectWS => exact absurd hpost hpre
  | socketOpened =>
    cases ws with
    | none => exact absurd hpost hpre
    | some rs => cases rs <;> exact absurd hpost hpre
  | socketError => exact absurd hpost hpre
  | disconnect => exact absurd hpost hpre
  | wsMessage m =>
    cases m with
    | headerFail => exact absurd hpost hpre
    | topicFw d => exact absurd hpost hpre
    | topicIdentityFw d => exact absurd hpost hpre
    | ping d => exact absurd hpost hpre
    | other t => exact absurd hpost hpre
    | welcome d =>
      cases d with
      | none => exact absurd hpost hpre
      | some a =>
        cases ws with
        | none => exact absurd hpost hpre
        | some rs =>
          cases rs with
          | OPEN =>
            refine ⟨a, rfl, rfl, ?_⟩
            simp [brokerStep, brokerOnWsMessage, sendCoordinatorMessage]
          | CONNECTING => exact absurd hpost hpre
          | CLOSING => exact absurd hpost hpre
          | CLOSED => exact absurd hpost hpre

/-- C3 witness: on an open socket with the future pending, a WELCOME
carrying alias 5 resolves the future, and the theorem yields the WELCOME
event and the sent CONNECT reply. -/
theorem C3_connected_resolves_only_with_welcome_and_connect_witness :
    brokerAwaitingWelcome.connected ≠ .resolved ∧
    (brokerStep brokerAwaitingWelcome (.wsMessage (.welcome (some 5)))).connected = .resolved ∧
    ∃ a, BrokerEvent.wsMessage (.welcome (some 5)) = .wsMessage (.welcome (some a)) ∧
      brokerAwaitingWelcome.ws = some .OPEN ∧
      BrokerOut.connectMsg a 0 ∈
        (brokerStep brokerAwaitingWelcome (.wsMessage (.welcome (some 5)))).sent :=
  ⟨by decide, rfl,
    C3_connected_resolves_only_with_welcome_and_connect _ _ (by decide) rfl⟩

/-- Specification of the modelled selectFirstByScore: a returned
candidate is one of the context's candidates and beats every other
candidate's score by at least the margin. -/
theorem selectFirstByScore_spec (ctx : AlgorithmContext) (score : Candidate → Int)
    (margin : Int) (c : Candidate)
    (h : selectFirstByScore ctx score margin = some c) :
    c ∈ ctx.allCandidates ∧ ∀ d ∈ ctx.allCandidates, d ≠ c → score d + margin ≤ score c := by
  classical
  haveI : IsTotal Candidate (fun a b => score b ≤ score a) :=
    ⟨fun a b => le_total (score b) (score a)⟩
  haveI : IsTrans Candidate (fun a b => score b ≤ score a) :=
    ⟨fun _ _ _ hab hbc => le_trans hbc hab⟩
  have hperm := List.perm_insertionSort (fun a b => score b ≤ score a) ctx.allCandidates
  have hsorted := List.sorted_insertionSort (fun a b => score b ≤ score a) ctx.allCandidates
  unfold selectFirstByScore at h
  cases hl : List.insertionSort (fun a b => score b ≤ score a) ctx.allCandidates with
  | nil => rw [hl] at h; exact absurd h (by simp)
  | cons c1 tail =>
    rw [hl] at h hperm hsorted
    cases tail with
    | nil =>
      have h1 : some c1 = some c := h
      obtain rfl : c1 = c := by simpa using h1
      refine ⟨hperm.mem_iff.mp (by simp), fun d hd hne => ?_⟩
      have hd1 := hperm.mem_iff.mpr hd
      simp at hd1
      exact absurd hd1 hne
    | cons c2 rest =>
      have h0 : (if margin ≤ score c1 - score c2 then some c1 else none) = some c := h
      by_cases hm : margin ≤ score c1 - score c2
      · rw [if_pos hm] at h0
        obtain rfl : c1 = c := by simpa using h0
        refine ⟨hperm.mem_iff.mp (by simp), fun d hd hne => ?_⟩
        have hdmem := hperm.mem_iff.mpr hd
        rcases List.mem_cons.mp hdmem with rfl | hdm
        · exact absurd rfl hne
        · have hs1 := List.sorted_cons.mp hsorted
          have hs2 := List.sorted_cons.mp hs1.2
          have hdle : score d ≤ score c2 := by
            rcases List.mem_cons.mp hdm with rfl | hdm2
            · exact le_refl _
            · exact hs2.1 d hdm2
          omega
      · rw [if_neg hm] at h0
        exact absurd h0 (by simp)

/-- C7: the close-peers score link gives a candidate with at least one
known user parcel the raw score baseScore plus the count of its parcels
close to the user's parcel, and gives candidates without known positions
the score 0; after the latency-deduction addon, the link returns a
candidate only when its adjusted score beats every other candidate's by
at least the margin 10 (so with a runner-up within the margin it returns
no decision). -/
theorem C7_close_peers_score_link (params : ClosePeersScoreParameters) (ctx : AlgorithmContext) :
    (∀ (c : Candidate) (ps : List Parcel), c.usersParcels = some ps → ps ≠ [] →
      closeUsersScore params ctx.userParcel c =
        params.baseScore + countParcelsCloseTo ctx.userParcel ps params.closePeersDistance) ∧
    (∀ c : Candidate, c.usersParcels = none ∨ c.usersParcels = some [] →
      closeUsersScore params ctx.userParcel c = 0) ∧
    (∀ c : Candidate, closePeersScorePick params ctx = some c →
      c ∈ ctx.allCandidates ∧
      ∀ d ∈ ctx.allCandidates, d ≠ c →
        defaultScoreAddons params.latencyDeduction (closeUsersScore params ctx.userParcel) d
            + 10 ≤
          defaultScoreAddons params.latencyDeduction
            (closeUsersScore params ctx.userParcel) c) := by
  refine ⟨?_, ?_, ?_⟩
  · intro c ps hps hne
    simp [closeUsersScore, hps, List.length_pos.mpr hne]
  · rintro c (hn | hn) <;> simp [closeUsersScore, hn]
  · intro c hc
    exact selectFirstByScore_spec ctx _ 10 c hc

/-- C7 witness: in the demo context, candidate A scores 41 (base 40 plus
one close parcel), candidate B scores 0, and the link decides for A since
the margin 41 is at least 10. -/
theorem C7_close_peers_score_link_witness :
    closePeersScorePick demoParams demoContext = some demoCandidateA ∧
    demoCandidateA ∈ demoContext.allCandidates ∧
    (∀ d ∈ demoContext.allCandidates, d ≠ demoCandidateA →
      defaultScoreAddons demoParams.latencyDeduction
          (closeUsersScore demoParams demoContext.userParcel) d + 10 ≤
        defaultScoreAddons demoParams.latencyDeduction
          (closeUsersScore demoParams demoContext.userParcel) demoCandidateA) ∧
    closeUsersScore demoParams demoContext.userParcel demoCandidateA = 41 ∧
    closeUsersScore demoParams demoContext.userParcel demoCandidateB = 0 :=
  ⟨by decide,
    ((C7_close_peers_score_link demoParams demoContext).2.2 demoCandidateA (by decide)).1,
    ((C7_close_peers_score_link demoParams demoContext).2.2 demoCandidateA (by decide)).2,
    by decide, by decide⟩

/-- Splitting the scheme separator of an https-prefixed url finds the
https scheme, whatever follows. -/
theorem splitSchemeSep_https (t : List Char) :
    splitSchemeSep ('h' :: 't' :: 't' :: 'p' :: 's' :: ':' :: '/' :: '/' :: t) =
      some (['h', 't', 't', 'p', 's'], t) := rfl

/-- Splitting the scheme separator of an http-prefixed url finds the
http scheme, whatever follows. -/
theorem splitSchemeSep_http (t : List Char) :
    splitSchemeSep ('h' :: 't' :: 't' :: 'p' :: ':' :: '/' :: '/' :: t) =
      some (['h', 't', 't', 'p'], t) := rfl

/-- httpToWs rewrites a leading https scheme to wss, whatever follows. -/
theorem httpToWs_https (t : List Char) :
    httpToWs ('h' :: 't' :: 't' :: 'p' :: 's' :: ':' :: '/' :: '/' :: t) =
      'w' :: 's' :: 's' :: ':' :: '/' :: '/' :: t := rfl

/-- httpToWs rewrites a leading http scheme to ws, whatever follows. -/
theorem httpToWs_http (t : List Char) :
    httpToWs ('h' :: 't' :: 't' :: 'p' :: ':' :: '/' :: '/' :: t) =
      'w' :: 's' :: ':' :: '/' :: '/' :: t := rfl

/-- C9: the v4 resolver maps the alias hostname local exactly to the
fixed local socket address and the alias remote exactly to the fixed
remote socket address; any other v4 hostname without a scheme separator
and without a path is given the https scheme, the sub-path bff/ws-bff,
and the wss rewrite; a hostname that already carries an http scheme
keeps it (no https normalization) and is rewritten to ws. -/
theorem C9_resolveCommsV4Url_spec (realm : Realm) (hv4 : realm.protocol = "v4") :
    (realm.hostname = "local" →
      resolveCommsV4Url realm = some "ws://127.0.0.1:5002/ws-bff".data) ∧
    (realm.hostname = "remote" →
      resolveCommsV4Url realm = some "wss://explorer-bff.decentraland.io/ws-bff".data) ∧
    (realm.hostname ≠ "local" → realm.hostname ≠ "remote" →
      splitSchemeSep realm.hostname.data = none →
      realm.hostname.data.contains '/' = false →
      resolveCommsV4Url realm =
        some ("wss://".data ++ realm.hostname.data ++ "/bff/ws-bff".data)) ∧
    (∀ rest : List Char, realm.hostname ≠ "local" → realm.hostname ≠ "remote" →
      realm.hostname.data = "http://".data ++ rest →
      rest.contains '/' = false →
      resolveCommsV4Url realm = some ("ws://".data ++ rest ++ "/bff/ws-bff".data)) := by
  obtain ⟨p, host, sname⟩ := realm
  subst hv4
  refine ⟨?_, ?_, ?_, ?_⟩
  · intro h
    subst h
    rfl
  · intro h
    subst h
    rfl
  · intro h1 h2 hsep hsl
    have hsl' : ¬('/' ∈ host.data) := by simpa using hsl
    simp [resolveCommsV4Url, h1, h2, hsep, urlResolve, splitSchemeSep_https, hsl',
      httpToWs_https, List.append_assoc]
  · intro rest h1 h2 hdata hsl
    have hsl' : ¬('/' ∈ rest) := by simpa using hsl
    have hdata' : host.data = 'h' :: 't' :: 't' :: 'p' :: ':' :: '/' :: '/' :: rest := hdata
    simp [resolveCommsV4Url, h1, h2, hdata', urlResolve, splitSchemeSep_http, hsl',
      httpToWs_http, List.append_assoc]

/-- C9 witness: the theorem applied to the local, remote and
peer.decentraland.org hostnames. -/
theorem C9_resolveCommsV4Url_spec_witness :
    (⟨"v4", "local", "s"⟩ : Realm).protocol = "v4" ∧
    resolveCommsV4Url ⟨"v4", "local", "s"⟩ = some "ws://127.0.0.1:5002/ws-bff".data ∧
    resolveCommsV4Url ⟨"v4", "remote", "s"⟩ =
      some "wss://explorer-bff.decentraland.io/ws-bff".data ∧
    resolveCommsV4Url ⟨"v4", "peer.decentraland.org", "s"⟩ =
      some ("wss://".data ++ "peer.decentraland.org".data ++ "/bff/ws-bff".data) :=
  ⟨rfl, (C9_resolveCommsV4Url_spec ⟨"v4", "local", "s"⟩ rfl).1 rfl,
    (C9_resolveCommsV4Url_spec ⟨"v4", "remote", "s"⟩ rfl).2.1 rfl,
    (C9_resolveCommsV4Url_spec ⟨"v4", "peer.decentraland.org", "s"⟩ rfl).2.2.1
      (by decide) (by decide) (by decide) (by decide)⟩
